import Mathlib

/-!
Verification of the travel-pal-api usage ledger.

The repository contains two quota variants:
* `part_000` ("VERSION 1001"): a Redis-Lua based ledger with a free daily
  allowance, a paid credit balance and idempotent purchase crediting
  (`LUA_CONSUME_USAGE`, `LUA_ADD_CREDITS_IF_NEW_PURCHASE`, `getCreditsStatus`,
  `getUserId`, and the quota-gating part of the `POST /analyze` handler).
  Modelled in namespace `TravelPal`.
* `index.js`: an older variant whose quota is a bare daily INCR counter
  (`checkAndConsumeQuota`, `getUserId`, the `POST /analyze` gate).
  Modelled in namespace `IndexJs`.

The Ledger Store is modelled as total maps with absent keys reading as
`0` / `false`, matching `tonumber(redis.call("GET", k) or "0")` and `EXISTS`.
Atomic Lua scripts become single Lean functions on the store state; by the
store contract these execute without interleaving, so concurrent invocations
are exactly their serializations.  Wall-clock time (day-key derivation, TTL
expiry) is outside the model: day keys and TTLs are explicit parameters.
-/

/-- JS `String.prototype.trim`: strip leading and trailing whitespace.
Modelled structurally over the character list so that it evaluates. -/
def jsTrim (s : String) : String :=
  ⟨((s.data.dropWhile Char.isWhitespace).reverse.dropWhile Char.isWhitespace).reverse⟩

namespace TravelPal

/-- The Ledger Store state: free-usage counters keyed by `(userId, dayKey)`
(key `tp:free_used:<userId>:<dayKey>`), credit balances keyed by `userId`
(key `tp:credits:<userId>`), and purchase receipt markers keyed by purchase
token (key `tp:purchase:<token>`).  Absent keys read as `0` / `false`. -/
structure Store where
  freeUsed : String → String → Int
  credits : String → Int
  marker : String → Bool

/-- Write the free-usage counter for `(userId, dayKey)`. -/
def setFreeUsed (s : Store) (userId dayKey : String) (v : Int) : Store :=
  { s with freeUsed := fun u d => if u = userId ∧ d = dayKey then v else s.freeUsed u d }

/-- Write the credit balance for `userId`. -/
def setCredits (s : Store) (userId : String) (v : Int) : Store :=
  { s with credits := fun u => if u = userId then v else s.credits u }

/-- Create the purchase receipt marker for `token` (`SET pKey "1" EX ttl`). -/
def setMarker (s : Store) (token : String) : Store :=
  { s with marker := fun t => if t = token then true else s.marker t }

/-- Return array `[allowed, usedFree, freeUsedAfter, creditsAfter]` of
`LUA_CONSUME_USAGE` (the spec's `TryConsume` decision). -/
structure ConsumeResult where
  allowed : Bool
  usedFree : Bool
  freeUsedAfter : Int
  creditsAfter : Int
deriving Repr, DecidableEq

/-- `LUA_CONSUME_USAGE` (part_000 lines 172-195), the spec's `TryConsume`:
read both counters (absent = 0); if `freeUsed < freeLimit` increment the
free counter and allow with `usedFree = 1`; else if `credits > 0` decrement
credits (clamping a negative result to 0) and allow with `usedFree = 0`;
else deny with no mutation.  The Lua script runs atomically in the store. -/
def consumeUsage (freeLimit : Int) (userId dayKey : String) (s : Store) :
    ConsumeResult × Store :=
  let freeUsed := s.freeUsed userId dayKey
  let credits := s.credits userId
  if freeUsed < freeLimit then
    let freeUsed1 := freeUsed + 1
    (⟨true, true, freeUsed1, credits⟩, setFreeUsed s userId dayKey freeUsed1)
  else if credits > 0 then
    let credits1 := credits - 1
    if credits1 < 0 then
      (⟨true, false, freeUsed, 0⟩, setCredits s userId 0)
    else
      (⟨true, false, freeUsed, credits1⟩, setCredits s userId credits1)
  else
    (⟨false, false, freeUsed, credits⟩, s)

/-- Return pair `[didAdd, creditsAfter]` of `LUA_ADD_CREDITS_IF_NEW_PURCHASE`
(the spec's `CreditIfNewPurchase` outcome). -/
structure CreditResult where
  didAdd : Bool
  creditsAfter : Int
deriving Repr, DecidableEq

/-- `LUA_ADD_CREDITS_IF_NEW_PURCHASE` (part_000 lines 213-227), the spec's
`CreditIfNewPurchase`: if the purchase marker for `purchaseToken` exists,
report `didAdd = 0` with the current balance and mutate nothing; otherwise
create the marker (with TTL `ttl`, whose wall-clock expiry is outside the
model) and `INCRBY` the balance by `add`.  Runs atomically in the store. -/
def addCreditsIfNewPurchase (purchaseToken userId : String) (add ttl : Int)
    (s : Store) : CreditResult × Store :=
  if s.marker purchaseToken then
    (⟨false, s.credits userId⟩, s)
  else
    let creditsAfter := s.credits userId + add
    (⟨true, creditsAfter⟩, setCredits (setMarker s purchaseToken) userId creditsAfter)

/-- The `freeToday` block of a status response. -/
structure FreeToday where
  limit : Int
  used : Int
  remaining : Int
  day : String
deriving Repr, DecidableEq

/-- A status response: a `freeToday` block plus the remaining credits. -/
structure Status where
  freeToday : FreeToday
  creditsRemaining : Int
deriving Repr, DecidableEq

/-- `getCreditsStatus` (part_000 lines 229-252), the spec's `ReadStatus`:
pure MGET of today's free-usage counter and the credit balance (absent = 0),
with `remaining = max(0, FREE_LIMIT_PER_DAY - used)`.  No mutation: the
function returns only a `Status`, never a new store. -/
def getCreditsStatus (freeLimit : Int) (userId dayKey : String) (s : Store) : Status :=
  let used := s.freeUsed userId dayKey
  let credits := s.credits userId
  { freeToday :=
      { limit := freeLimit, used := used
        remaining := max 0 (freeLimit - used), day := dayKey }
    creditsRemaining := credits }

/-- `getUserId` (part_000 lines 258-262): trim the `x-user-id` header
(missing header read as `""`); `none` when empty after trimming. -/
def getUserId (header : Option String) : Option String :=
  let userId := jsTrim (header.getD "")
  if userId = "" then none else some userId

/-- One ledger operation, for reasoning about arbitrary call sequences. -/
inductive Op where
  | consume (freeLimit : Int) (userId dayKey : String)
  | credit (token userId : String) (add ttl : Int)
  | status (freeLimit : Int) (userId dayKey : String)
deriving Repr

/-- Effect of one operation on the store (`status` is a pure read). -/
def applyOp (op : Op) (s : Store) : Store :=
  match op with
  | .consume freeLimit userId dayKey => (consumeUsage freeLimit userId dayKey s).2
  | .credit token userId add ttl => (addCreditsIfNewPurchase token userId add ttl s).2
  | .status _ _ _ => s

/-- Run a sequence of ledger operations left to right. -/
def runOps : List Op → Store → Store
  | [], s => s
  | op :: rest, s => runOps rest (applyOp op s)

/-- A credit operation with a non-negative amount (all other ops trivially). -/
def Op.addOk : Op → Bool
  | .credit _ _ add _ => decide (0 ≤ add)
  | _ => true

/-- Outcome of the quota-gating part of the part_000 `POST /analyze` handler. -/
inductive GateOutcome where
  | missingImage
  | missingUser
  | noRedis
  | storeError
  | paywall
  | proceed
deriving Repr, DecidableEq

/-- Quota-gating part of the part_000 `POST /analyze` handler (lines 294-347):
reject when `imageBase64` is missing; take `userId` from dev-bypass or the
header, rejecting when absent; 500 when the redis client is absent; skip the
quota entirely on dev bypass; if the store call fails the thrown error is
caught and the request fails (`storeError`) with no mutation assumed;
otherwise run `LUA_CONSUME_USAGE`, re-arm the free-key expiry best-effort
(`.catch(() => \x7b\x7d)` swallows failure, so `expireOk` is ignored), and
answer 402 paywall or proceed. -/
def analyzeGate (hasImage redisPresent storeReachable devBypass : Bool)
    (header : Option String) (freeLimit : Int) (dayKey : String)
    (expireOk : Bool) (s : Store) : GateOutcome × Store :=
  if !hasImage then (.missingImage, s)
  else
    match (if devBypass then some "dev_bypass" else getUserId header) with
    | none => (.missingUser, s)
    | some userId =>
      if !redisPresent then (.noRedis, s)
      else if devBypass then (.proceed, s)
      else if !storeReachable then (.storeError, s)
      else
        let r := consumeUsage freeLimit userId dayKey s
        if !r.1.allowed then (.paywall, r.2) else (.proceed, r.2)

end TravelPal

namespace IndexJs

/-- Store state of the index.js variant: daily quota counters keyed by
`(userId, day)` (key `quota:<userId>:<day>`) and credit balances
(key `credits:<userId>`); absent keys read as 0. -/
structure QuotaStore where
  quota : String → String → Int
  credits : String → Int

/-- Result object of `checkAndConsumeQuota`. -/
structure QuotaResult where
  ok : Bool
  used : Int
  remaining : Int
  limit : Int
deriving Repr, DecidableEq

/-- `getUserId` (index.js lines 67-71): missing header or empty-after-trim
falls back to the sentinel `"anonymous"`; never rejects. -/
def getUserId (header : Option String) : String :=
  match header with
  | none => "anonymous"
  | some h => if jsTrim h = "" then "anonymous" else jsTrim h

/-- `checkAndConsumeQuota` (index.js lines 81-100): when the redis client is
absent, return `ok = true` without touching any counter; otherwise INCR the
daily quota key (committing the increment unconditionally), arm its expiry
when `used === 1` with no catch (a failing expire throws after the INCR has
committed, modelled by `expireOk = false`), and report
`ok = used <= limitPerDay`. -/
def checkAndConsumeQuota (redisPresent expireOk : Bool) (userId day : String)
    (limitPerDay : Int) (s : QuotaStore) : Except String QuotaResult × QuotaStore :=
  if !redisPresent then
    (.ok ⟨true, 0, limitPerDay, limitPerDay⟩, s)
  else
    let used := s.quota userId day + 1
    let s1 : QuotaStore :=
      { s with quota := fun u d => if u = userId ∧ d = day then used else s.quota u d }
    if used = 1 ∧ expireOk = false then
      (.error "EXPIRE_FAILED", s1)
    else
      (.ok ⟨decide (used ≤ limitPerDay), used, max 0 (limitPerDay - used), limitPerDay⟩, s1)

/-- Outcome of the quota-gating part of the index.js `POST /analyze` handler. -/
inductive AnalyzeOutcome where
  | badRequest
  | freeLimitReached
  | proceed
  | serverError
deriving Repr, DecidableEq

/-- Quota-gating part of the index.js `POST /analyze` handler (lines 382-409):
reject when `imageBase64` is missing; take `userId` via the `"anonymous"`
fallback; skip the quota on dev bypass; otherwise consume the quota, where a
thrown store error reaches the handler's catch (500 `SERVER_ERROR`). -/
def analyzeGate (hasImage redisPresent expireOk bypass : Bool)
    (header : Option String) (freeLimit : Int) (day : String)
    (s : QuotaStore) : AnalyzeOutcome × QuotaStore :=
  if !hasImage then (.badRequest, s)
  else
    let userId := getUserId header
    if bypass then (.proceed, s)
    else
      match checkAndConsumeQuota redisPresent expireOk userId day freeLimit s with
      | (.error _, s1) => (.serverError, s1)
      | (.ok q, s1) => if q.ok = false then (.freeLimitReached, s1) else (.proceed, s1)

end IndexJs

open TravelPal

/-! ## Helper lemmas shared by the claim theorems -/

/-- No ledger operation ever clears an existing purchase receipt marker. -/
theorem applyOp_marker_mono (op : Op) (s : Store) (t : String)
    (h : s.marker t = true) : (applyOp op s).marker t = true := by
  cases op with
  | consume l uid d =>
      by_cases hfree : s.freeUsed uid d < l
      · simpa [applyOp, consumeUsage, hfree, setFreeUsed] using h
      · by_cases hcr : s.credits uid > 0
        · by_cases hneg : s.credits uid - 1 < 0 <;>
            simpa [applyOp, consumeUsage, hfree, hcr, hneg, setCredits] using h
        · simpa [applyOp, consumeUsage, hfree, hcr] using h
  | credit tok uid add ttl =>
      by_cases hm : s.marker tok
      · simpa [applyOp, addCreditsIfNewPurchase, hm] using h
      · by_cases ht : t = tok <;>
          simp [applyOp, addCreditsIfNewPurchase, hm, setCredits, setMarker, ht, h]
  | status l uid d => simpa [applyOp] using h

/-- Purchase receipt markers persist across any sequence of ledger operations. -/
theorem runOps_marker_mono (ops : List Op) (s : Store) (t : String)
    (h : s.marker t = true) : (runOps ops s).marker t = true := by
  induction ops generalizing s with
  | nil => simpa [runOps] using h
  | cons op rest ih => exact ih _ (applyOp_marker_mono op s t h)

/-- A single ledger operation with a non-negative credit amount keeps a
non-negative credit balance non-negative. -/
theorem applyOp_credits_nonneg (op : Op) (s : Store) (u : String)
    (hs : 0 ≤ s.credits u) (hop : op.addOk = true) :
    0 ≤ (applyOp op s).credits u := by
  cases op with
  | consume l uid d =>
      by_cases hfree : s.freeUsed uid d < l
      · simpa [applyOp, consumeUsage, hfree, setFreeUsed] using hs
      · by_cases hcr : s.credits uid > 0
        · by_cases hu : u = uid
          · subst hu
            by_cases hneg : s.credits u - 1 < 0 <;>
              simp [applyOp, consumeUsage, hfree, hcr, hneg, setCredits] <;> omega
          · by_cases hneg : s.credits uid - 1 < 0 <;>
              simpa [applyOp, consumeUsage, hfree, hcr, hneg, setCredits, hu] using hs
        · simpa [applyOp, consumeUsage, hfree, hcr] using hs
  | credit tok uid add ttl =>
      have hadd : 0 ≤ add := by simpa [Op.addOk] using hop
      by_cases hm : s.marker tok
      · simpa [applyOp, addCreditsIfNewPurchase, hm] using hs
      · by_cases hu : u = uid
        · subst hu
          simp [applyOp, addCreditsIfNewPurchase, hm, setCredits, setMarker]
          omega
        · simpa [applyOp, addCreditsIfNewPurchase, hm, setCredits, setMarker, hu] using hs
  | status l uid d => simpa [applyOp] using hs

/-! ## Claim theorems -/

/-- C1: Free-before-paid ordering.  Whenever the free-usage counter is below
`freeDailyLimit`, `TryConsume` (`LUA_CONSUME_USAGE`) allows with
`usedFree = true` and leaves all credit balances unchanged; and from a fresh
day with `freeDailyLimit = 2` and credit balance 5, three consecutive calls
return `usedFree = true, true, false`, all allowed, ending with the
free-usage counter at 2 and the credit balance at 4. -/
theorem C1_free_before_paid (freeLimit : Int) (userId dayKey : String) (s : Store)
    (h : s.freeUsed userId dayKey < freeLimit) :
    ((consumeUsage freeLimit userId dayKey s).1.allowed = true ∧
     (consumeUsage freeLimit userId dayKey s).1.usedFree = true ∧
     (consumeUsage freeLimit userId dayKey s).2.credits = s.credits) ∧
    ((consumeUsage 2 "u1" "D"
        (⟨fun _ _ => 0, fun _ => 5, fun _ => false⟩ : Store)).1.usedFree = true ∧
     (consumeUsage 2 "u1" "D"
        (⟨fun _ _ => 0, fun _ => 5, fun _ => false⟩ : Store)).1.allowed = true ∧
     (consumeUsage 2 "u1" "D" (consumeUsage 2 "u1" "D"
        (⟨fun _ _ => 0, fun _ => 5, fun _ => false⟩ : Store)).2).1.usedFree = true ∧
     (consumeUsage 2 "u1" "D" (consumeUsage 2 "u1" "D"
        (⟨fun _ _ => 0, fun _ => 5, fun _ => false⟩ : Store)).2).1.allowed = true ∧
     (consumeUsage 2 "u1" "D" (consumeUsage 2 "u1" "D" (consumeUsage 2 "u1" "D"
        (⟨fun _ _ => 0, fun _ => 5, fun _ => false⟩ : Store)).2).2).1.usedFree = false ∧
     (consumeUsage 2 "u1" "D" (consumeUsage 2 "u1" "D" (consumeUsage 2 "u1" "D"
        (⟨fun _ _ => 0, fun _ => 5, fun _ => false⟩ : Store)).2).2).1.allowed = true ∧
     (consumeUsage 2 "u1" "D" (consumeUsage 2 "u1" "D" (consumeUsage 2 "u1" "D"
        (⟨fun _ _ => 0, fun _ => 5, fun _ => false⟩ : Store)).2).2).2.freeUsed "u1" "D" = 2 ∧
     (consumeUsage 2 "u1" "D" (consumeUsage 2 "u1" "D" (consumeUsage 2 "u1" "D"
        (⟨fun _ _ => 0, fun _ => 5, fun _ => false⟩ : Store)).2).2).2.credits "u1" = 4) := by
  refine ⟨⟨?_, ?_, ?_⟩, by decide⟩ <;> simp [consumeUsage, h, setFreeUsed]

/-- C1 witness at a concrete input. -/
theorem C1_free_before_paid_witness :
    ((⟨fun _ _ => 0, fun _ => 5, fun _ => false⟩ : Store).freeUsed "u1" "D" < 2) ∧
    ((consumeUsage 2 "u1" "D"
        (⟨fun _ _ => 0, fun _ => 5, fun _ => false⟩ : Store)).1.usedFree = true ∧
     (consumeUsage 2 "u1" "D"
        (⟨fun _ _ => 0, fun _ => 5, fun _ => false⟩ : Store)).2.credits
       = (⟨fun _ _ => 0, fun _ => 5, fun _ => false⟩ : Store).credits) :=
  ⟨by decide,
   ⟨(C1_free_before_paid 2 "u1" "D" ⟨fun _ _ => 0, fun _ => 5, fun _ => false⟩
      (by decide)).1.2.1,
    (C1_free_before_paid 2 "u1" "D" ⟨fun _ _ => 0, fun _ => 5, fun _ => false⟩
      (by decide)).1.2.2⟩⟩

/-- C4 counterexample: in the index.js variant, a user at the free limit
(counter 2, limit 2) with credit balance 0 is denied (`ok = false`) but the
free-usage counter is still incremented from 2 to 3 — `checkAndConsumeQuota`
runs `INCR` unconditionally before checking the limit, so deny does mutate. -/
theorem C4_deny_mutates_counterexample :
    (IndexJs.checkAndConsumeQuota true true "u1" "2026-10-11" 2
        (⟨fun _ _ => 2, fun _ => 0⟩ : IndexJs.QuotaStore)).1.toOption
      = some (⟨false, 3, 0, 2⟩ : IndexJs.QuotaResult) ∧
    (IndexJs.checkAndConsumeQuota true true "u1" "2026-10-11" 2
        (⟨fun _ _ => 2, fun _ => 0⟩ : IndexJs.QuotaStore)).2.quota "u1" "2026-10-11"
      = 3 := by
  constructor <;> decide

/-- C4 amended: in the Lua-script variant (part_000), when the free-usage
counter is at or above the limit and the credit balance is 0,
`LUA_CONSUME_USAGE` denies and performs no mutation at all (the store is
returned exactly unchanged); the index.js variant instead increments the
daily counter even on a denied request. -/
theorem C4_deny_without_mutation (freeLimit : Int) (userId dayKey : String)
    (s : Store) (h1 : freeLimit ≤ s.freeUsed userId dayKey)
    (h2 : s.credits userId = 0) :
    (consumeUsage freeLimit userId dayKey s).1.allowed = false ∧
    (consumeUsage freeLimit userId dayKey s).2 = s := by
  have hf : ¬ s.freeUsed userId dayKey < freeLimit := by omega
  have hc : ¬ s.credits userId > 0 := by omega
  simp [consumeUsage, hf, hc]

/-- C4 witness at a concrete input. -/
theorem C4_deny_without_mutation_witness :
    ((2 : Int) ≤ (⟨fun _ _ => 2, fun _ => 0, fun _ => false⟩ : Store).freeUsed "u1" "D" ∧
     (⟨fun _ _ => 2, fun _ => 0, fun _ => false⟩ : Store).credits "u1" = 0) ∧
    ((consumeUsage 2 "u1" "D"
        (⟨fun _ _ => 2, fun _ => 0, fun _ => false⟩ : Store)).1.allowed = false ∧
     (consumeUsage 2 "u1" "D"
        (⟨fun _ _ => 2, fun _ => 0, fun _ => false⟩ : Store)).2
       = (⟨fun _ _ => 2, fun _ => 0, fun _ => false⟩ : Store)) :=
  ⟨⟨by decide, by decide⟩,
   C4_deny_without_mutation 2 "u1" "D" ⟨fun _ _ => 2, fun _ => 0, fun _ => false⟩
     (by decide) (by decide)⟩

/-- C5: Credit balance non-negativity.  For any user, any starting store where
that user's balance is non-negative, and any sequence of ledger operations
whose credit amounts are non-negative, the stored balance stays non-negative;
moreover the paid branch of `LUA_CONSUME_USAGE` stores exactly
`max 0 (credits - 1)`, i.e. a decrement that would cross below zero is
clamped to zero. -/
theorem C5_credit_balance_nonneg (ops : List Op) (s : Store) (u : String)
    (hs : 0 ≤ s.credits u) (hops : ops.all Op.addOk = true) :
    0 ≤ (runOps ops s).credits u ∧
    ∀ (l : Int) (uid d : String) (s' : Store), s'.credits uid > 0 →
      ¬ s'.freeUsed uid d < l →
      (consumeUsage l uid d s').2.credits uid = max 0 (s'.credits uid - 1) := by
  constructor
  · induction ops generalizing s with
    | nil => simpa [runOps] using hs
    | cons op rest ih =>
        simp only [List.all_cons, Bool.and_eq_true] at hops
        exact ih (applyOp op s) (applyOp_credits_nonneg op s u hs hops.1) hops.2
  · intro l uid d s' hcr hfree
    by_cases hneg : s'.credits uid - 1 < 0 <;>
      simp [consumeUsage, hfree, hcr, hneg, setCredits] <;> omega

/-- C5 witness at a concrete input. -/
theorem C5_credit_balance_nonneg_witness :
    ((0 : Int) ≤ (⟨fun _ _ => 0, fun _ => 0, fun _ => false⟩ : Store).credits "u1" ∧
     ([Op.consume 2 "u1" "D", Op.credit "tok-123" "u1" 150 100,
       Op.consume 0 "u1" "D", Op.status 2 "u1" "D"].all Op.addOk = true)) ∧
    (0 : Int) ≤ (runOps
      [Op.consume 2 "u1" "D", Op.credit "tok-123" "u1" 150 100,
       Op.consume 0 "u1" "D", Op.status 2 "u1" "D"]
      (⟨fun _ _ => 0, fun _ => 0, fun _ => false⟩ : Store)).credits "u1" :=
  ⟨⟨by decide, by decide⟩,
   (C5_credit_balance_nonneg
      [Op.consume 2 "u1" "D", Op.credit "tok-123" "u1" 150 100,
       Op.consume 0 "u1" "D", Op.status 2 "u1" "D"]
      ⟨fun _ _ => 0, fun _ => 0, fun _ => false⟩ "u1"
      (by decide) (by decide)).1⟩

/-- C6: Atomicity of the quota decision.  `LUA_CONSUME_USAGE` executes as one
atomic store script, so two concurrent identical `TryConsume` calls serialize;
for a user past the free quota with credit balance 1, the serialized pair
grants exactly the first call (`allowed = true` then `allowed = false`) and
leaves the final stored balance at 0, never negative and never double-granted. -/
theorem C6_atomic_last_credit (freeLimit : Int) (userId dayKey : String)
    (s : Store) (h1 : freeLimit ≤ s.freeUsed userId dayKey)
    (h2 : s.credits userId = 1) :
    (consumeUsage freeLimit userId dayKey s).1.allowed = true ∧
    (consumeUsage freeLimit userId dayKey
        ((consumeUsage freeLimit userId dayKey s).2)).1.allowed = false ∧
    (consumeUsage freeLimit userId dayKey
        ((consumeUsage freeLimit userId dayKey s).2)).2.credits userId = 0 := by
  have hf : ¬ s.freeUsed userId dayKey < freeLimit := by omega
  have e1 : consumeUsage freeLimit userId dayKey s
      = (⟨true, false, s.freeUsed userId dayKey, 0⟩, setCredits s userId 0) := by
    simp [consumeUsage, hf, h2]
  refine ⟨by simp [e1], ?_, ?_⟩ <;> rw [e1] <;>
    simp [consumeUsage, hf, setCredits]

/-- C6 witness at a concrete input. -/
theorem C6_atomic_last_credit_witness :
    ((2 : Int) ≤ (⟨fun _ _ => 2, fun _ => 1, fun _ => false⟩ : Store).freeUsed "u1" "D" ∧
     (⟨fun _ _ => 2, fun _ => 1, fun _ => false⟩ : Store).credits "u1" = 1) ∧
    ((consumeUsage 2 "u1" "D"
        (⟨fun _ _ => 2, fun _ => 1, fun _ => false⟩ : Store)).1.allowed = true ∧
     (consumeUsage 2 "u1" "D" (consumeUsage 2 "u1" "D"
        (⟨fun _ _ => 2, fun _ => 1, fun _ => false⟩ : Store)).2).1.allowed = false ∧
     (consumeUsage 2 "u1" "D" (consumeUsage 2 "u1" "D"
        (⟨fun _ _ => 2, fun _ => 1, fun _ => false⟩ : Store)).2).2.credits "u1" = 0) :=
  ⟨⟨by decide, by decide⟩,
   C6_atomic_last_credit 2 "u1" "D" ⟨fun _ _ => 2, fun _ => 1, fun _ => false⟩
     (by decide) (by decide)⟩

/-- C2: Idempotent crediting.  With no marker for token `t`, a first
`CreditIfNewPurchase` (`LUA_ADD_CREDITS_IF_NEW_PURCHASE`) creates the marker,
adds `add` to the balance and returns `didAdd = true` with the new balance;
the marker survives any further sequence of ledger operations, and any later
call with the same token returns `didAdd = false` with the then-current
balance and leaves the store exactly unchanged. -/
theorem C2_idempotent_crediting (s : Store) (t userId userId2 : String)
    (add ttl add2 ttl2 : Int) (ops : List Op) (h : s.marker t = false) :
    ((addCreditsIfNewPurchase t userId add ttl s).1.didAdd = true ∧
     (addCreditsIfNewPurchase t userId add ttl s).1.creditsAfter
       = s.credits userId + add ∧
     (addCreditsIfNewPurchase t userId add ttl s).2.marker t = true ∧
     (addCreditsIfNewPurchase t userId add ttl s).2.credits userId
       = s.credits userId + add) ∧
    (runOps ops (addCreditsIfNewPurchase t userId add ttl s).2).marker t = true ∧
    ((addCreditsIfNewPurchase t userId2 add2 ttl2
        (runOps ops (addCreditsIfNewPurchase t userId add ttl s).2)).1.didAdd
       = false ∧
     (addCreditsIfNewPurchase t userId2 add2 ttl2
        (runOps ops (addCreditsIfNewPurchase t userId add ttl s).2)).1.creditsAfter
       = (runOps ops (addCreditsIfNewPurchase t userId add ttl s).2).credits userId2 ∧
     (addCreditsIfNewPurchase t userId2 add2 ttl2
        (runOps ops (addCreditsIfNewPurchase t userId add ttl s).2)).2
       = runOps ops (addCreditsIfNewPurchase t userId add ttl s).2) := by
  have h1 : (addCreditsIfNewPurchase t userId add ttl s).2.marker t = true := by
    simp [addCreditsIfNewPurchase, h, setMarker, setCredits]
  have h2 := runOps_marker_mono ops _ t h1
  have e2 : addCreditsIfNewPurchase t userId2 add2 ttl2
      (runOps ops (addCreditsIfNewPurchase t userId add ttl s).2)
      = (⟨false, (runOps ops (addCreditsIfNewPurchase t userId add ttl s).2).credits userId2⟩,
         runOps ops (addCreditsIfNewPurchase t userId add ttl s).2) := by
    rw [addCreditsIfNewPurchase, if_pos h2]
  refine ⟨⟨?_, ?_, h1, ?_⟩, h2, ?_, ?_, ?_⟩
  · simp [addCreditsIfNewPurchase, h]
  · simp [addCreditsIfNewPurchase, h]
  · simp [addCreditsIfNewPurchase, h, setMarker, setCredits]
  · rw [e2]
  · rw [e2]
  · rw [e2]

/-- C2 witness at a concrete input. -/
theorem C2_idempotent_crediting_witness :
    ((⟨fun _ _ => 0, fun _ => 0, fun _ => false⟩ : Store).marker "tok-123" = false) ∧
    ((addCreditsIfNewPurchase "tok-123" "u1" 150 100
        (⟨fun _ _ => 0, fun _ => 0, fun _ => false⟩ : Store)).1.didAdd = true ∧
     (addCreditsIfNewPurchase "tok-123" "u1" 150 100
        (⟨fun _ _ => 0, fun _ => 0, fun _ => false⟩ : Store)).1.creditsAfter
       = (⟨fun _ _ => 0, fun _ => 0, fun _ => false⟩ : Store).credits "u1" + 150) :=
  ⟨by decide,
   ⟨(C2_idempotent_crediting ⟨fun _ _ => 0, fun _ => 0, fun _ => false⟩
       "tok-123" "u1" "u1" 150 100 150 100 [] (by decide)).1.1,
    (C2_idempotent_crediting ⟨fun _ _ => 0, fun _ => 0, fun _ => false⟩
       "tok-123" "u1" "u1" 150 100 150 100 [] (by decide)).1.2.1⟩⟩

/-- C7: Status consistency.  After any sequence of ledger operations, the
`freeUsedAfter`/`creditsAfter` returned by a further `TryConsume` equal the
values then stored, a further `CreditIfNewPurchase` returns the stored
balance and never touches free-usage counters, `ReadStatus` run right after
either mutating call reports exactly the counts that call returned, and
`ReadStatus` is a pure read computing `remaining = max 0 (limit - used)` from
the stored state (it returns only a `Status`, mutating nothing). -/
theorem C7_status_consistency (freeLimit : Int) (userId dayKey token : String)
    (add ttl : Int) (ops : List Op) (s0 : Store) :
    ((consumeUsage freeLimit userId dayKey (runOps ops s0)).1.freeUsedAfter
       = (consumeUsage freeLimit userId dayKey (runOps ops s0)).2.freeUsed userId dayKey ∧
     (consumeUsage freeLimit userId dayKey (runOps ops s0)).1.creditsAfter
       = (consumeUsage freeLimit userId dayKey (runOps ops s0)).2.credits userId) ∧
    ((getCreditsStatus freeLimit userId dayKey
        (consumeUsage freeLimit userId dayKey (runOps ops s0)).2).freeToday.used
       = (consumeUsage freeLimit userId dayKey (runOps ops s0)).1.freeUsedAfter ∧
     (getCreditsStatus freeLimit userId dayKey
        (consumeUsage freeLimit userId dayKey (runOps ops s0)).2).creditsRemaining
       = (consumeUsage freeLimit userId dayKey (runOps ops s0)).1.creditsAfter) ∧
    ((addCreditsIfNewPurchase token userId add ttl (runOps ops s0)).1.creditsAfter
       = (addCreditsIfNewPurchase token userId add ttl (runOps ops s0)).2.credits userId ∧
     (addCreditsIfNewPurchase token userId add ttl (runOps ops s0)).2.freeUsed
       = (runOps ops s0).freeUsed ∧
     (getCreditsStatus freeLimit userId dayKey
        (addCreditsIfNewPurchase token userId add ttl (runOps ops s0)).2).creditsRemaining
       = (addCreditsIfNewPurchase token userId add ttl (runOps ops s0)).1.creditsAfter) ∧
    getCreditsStatus freeLimit userId dayKey (runOps ops s0)
      = ⟨⟨freeLimit, (runOps ops s0).freeUsed userId dayKey,
          max 0 (freeLimit - (runOps ops s0).freeUsed userId dayKey), dayKey⟩,
         (runOps ops s0).credits userId⟩ := by
  generalize runOps ops s0 = s
  have hcons : (consumeUsage freeLimit userId dayKey s).1.freeUsedAfter
        = (consumeUsage freeLimit userId dayKey s).2.freeUsed userId dayKey ∧
      (consumeUsage freeLimit userId dayKey s).1.creditsAfter
        = (consumeUsage freeLimit userId dayKey s).2.credits userId := by
    by_cases hfree : s.freeUsed userId dayKey < freeLimit
    · simp [consumeUsage, hfree, setFreeUsed]
    · by_cases hcr : s.credits userId > 0
      · by_cases hneg : s.credits userId - 1 < 0 <;>
          simp [consumeUsage, hfree, hcr, hneg, setCredits]
      · simp [consumeUsage, hfree, hcr]
  have hcred : (addCreditsIfNewPurchase token userId add ttl s).1.creditsAfter
        = (addCreditsIfNewPurchase token userId add ttl s).2.credits userId ∧
      (addCreditsIfNewPurchase token userId add ttl s).2.freeUsed = s.freeUsed := by
    by_cases hm : s.marker token <;>
      simp [addCreditsIfNewPurchase, hm, setMarker, setCredits]
  refine ⟨hcons, ⟨?_, ?_⟩, ⟨hcred.1, hcred.2, ?_⟩, ?_⟩
  · simpa [getCreditsStatus] using hcons.1.symm
  · simpa [getCreditsStatus] using hcons.2.symm
  · simpa [getCreditsStatus] using hcred.1.symm
  · simp [getCreditsStatus]

/-- C10 counterpart--free claim: purchase markers are keyed by token only.
After a first `CreditIfNewPurchase` for token `t` by user `u1` returns
`didAdd = true` and credits `u1`, a later call with the same token by a
different user `u2` returns `didAdd = false`, reports `u2`'s unchanged
balance, and mutates neither user's balance (the store is returned exactly
as it was after the first call). -/
theorem C10_marker_keyed_by_token (s : Store) (t u1 u2 : String)
    (n n2 ttl ttl2 : Int) (hm : s.marker t = false) (hu : u1 ≠ u2) :
    (addCreditsIfNewPurchase t u1 n ttl s).1.didAdd = true ∧
    (addCreditsIfNewPurchase t u1 n ttl s).2.credits u1 = s.credits u1 + n ∧
    (addCreditsIfNewPurchase t u1 n ttl s).2.credits u2 = s.credits u2 ∧
    (addCreditsIfNewPurchase t u2 n2 ttl2
        (addCreditsIfNewPurchase t u1 n ttl s).2).1.didAdd = false ∧
    (addCreditsIfNewPurchase t u2 n2 ttl2
        (addCreditsIfNewPurchase t u1 n ttl s).2).1.creditsAfter = s.credits u2 ∧
    (addCreditsIfNewPurchase t u2 n2 ttl2
        (addCreditsIfNewPurchase t u1 n ttl s).2).2
      = (addCreditsIfNewPurchase t u1 n ttl s).2 := by
  have h1 : (addCreditsIfNewPurchase t u1 n ttl s).2.marker t = true := by
    simp [addCreditsIfNewPurchase, hm, setMarker, setCredits]
  refine ⟨?_, ?_, ?_, ?_, ?_, ?_⟩ <;>
    simp [addCreditsIfNewPurchase, hm, h1, setMarker, setCredits, Ne.symm hu]

/-- C10 witness at a concrete input. -/
theorem C10_marker_keyed_by_token_witness :
    ((⟨fun _ _ => 0, fun _ => 0, fun _ => false⟩ : Store).marker "tok-123" = false ∧
     "u1" ≠ "u2") ∧
    ((addCreditsIfNewPurchase "tok-123" "u2" 150 100
        (addCreditsIfNewPurchase "tok-123" "u1" 150 100
          (⟨fun _ _ => 0, fun _ => 0, fun _ => false⟩ : Store)).2).1.didAdd = false ∧
     (addCreditsIfNewPurchase "tok-123" "u2" 150 100
        (addCreditsIfNewPurchase "tok-123" "u1" 150 100
          (⟨fun _ _ => 0, fun _ => 0, fun _ => false⟩ : Store)).2).1.creditsAfter
       = (⟨fun _ _ => 0, fun _ => 0, fun _ => false⟩ : Store).credits "u2") :=
  ⟨⟨by decide, by decide⟩,
   ⟨(C10_marker_keyed_by_token ⟨fun _ _ => 0, fun _ => 0, fun _ => false⟩
       "tok-123" "u1" "u2" 150 150 100 100 (by decide) (by decide)).2.2.2.1,
    (C10_marker_keyed_by_token ⟨fun _ _ => 0, fun _ => 0, fun _ => false⟩
       "tok-123" "u1" "u2" 150 150 100 100 (by decide) (by decide)).2.2.2.2.1⟩⟩

/-- C3 counterexample: in the index.js variant, when the store client is
absent `checkAndConsumeQuota` fabricates `ok = true` and the `/analyze`
request proceeds — it is silently allowed, not denied, and no counter is
even consulted. -/
theorem C3_fail_open_counterexample :
    (IndexJs.analyzeGate true false true false (some "u1") 2 "2026-10-11"
        (⟨fun _ _ => 0, fun _ => 0⟩ : IndexJs.QuotaStore)).1
      = IndexJs.AnalyzeOutcome.proceed ∧
    (IndexJs.checkAndConsumeQuota false true "u1" "2026-10-11" 2
        (⟨fun _ _ => 0, fun _ => 0⟩ : IndexJs.QuotaStore)).1.toOption
      = some (⟨true, 0, 2, 2⟩ : IndexJs.QuotaResult) := by
  constructor <;> decide

/-- C3 amended: in the Lua-script variant (part_000), with dev bypass off, an
absent store client or a failing store call makes the `/analyze` gate reject
the request (500 `NO_REDIS` or a caught store error, never `proceed`) with no
mutation; the index.js variant's `checkAndConsumeQuota` instead silently
allows when the store client is absent. -/
theorem C3_fail_closed_lua_variant (hasImage expireOk : Bool)
    (header : Option String) (freeLimit : Int) (dayKey : String) (s : Store)
    (redisPresent storeReachable : Bool)
    (h : redisPresent = false ∨ storeReachable = false) :
    (analyzeGate hasImage redisPresent storeReachable false header
        freeLimit dayKey expireOk s).1 ≠ GateOutcome.proceed ∧
    (analyzeGate hasImage redisPresent storeReachable false header
        freeLimit dayKey expireOk s).2 = s := by
  cases hasImage with
  | false => simp [analyzeGate]
  | true =>
    cases hgu : getUserId header with
    | none => simp [analyzeGate, hgu]
    | some uid =>
      rcases h with h | h
      · subst h; simp [analyzeGate, hgu]
      · subst h; cases redisPresent <;> simp [analyzeGate, hgu]

/-- C3 witness at a concrete input. -/
theorem C3_fail_closed_lua_variant_witness :
    ((false : Bool) = false ∨ (true : Bool) = false) ∧
    ((analyzeGate true false true false (some "u1") 2 "2026-10-11" true
        (⟨fun _ _ => 0, fun _ => 0, fun _ => false⟩ : Store)).1
       ≠ GateOutcome.proceed ∧
     (analyzeGate true false true false (some "u1") 2 "2026-10-11" true
        (⟨fun _ _ => 0, fun _ => 0, fun _ => false⟩ : Store)).2
       = (⟨fun _ _ => 0, fun _ => 0, fun _ => false⟩ : Store)) :=
  ⟨Or.inl rfl,
   C3_fail_closed_lua_variant true true (some "u1") 2 "2026-10-11"
     ⟨fun _ _ => 0, fun _ => 0, fun _ => false⟩ false true (Or.inl rfl)⟩

/-- C8 counterexample: in the index.js variant a missing `x-user-id` header is
not rejected — `getUserId` falls back to the sentinel `"anonymous"`, the
`/analyze` request proceeds, and the `"anonymous"` free-usage counter is
mutated (incremented from 0 to 1). -/
theorem C8_anonymous_fallback_counterexample :
    IndexJs.getUserId none = "anonymous" ∧
    (IndexJs.analyzeGate true true true false none 2 "2026-10-11"
        (⟨fun _ _ => 0, fun _ => 0⟩ : IndexJs.QuotaStore)).1
      = IndexJs.AnalyzeOutcome.proceed ∧
    (IndexJs.analyzeGate true true true false none 2 "2026-10-11"
        (⟨fun _ _ => 0, fun _ => 0⟩ : IndexJs.QuotaStore)).2.quota
        "anonymous" "2026-10-11" = 1 := by
  refine ⟨by decide, by decide, by decide⟩

/-- C8 amended: in the Lua-script variant (part_000), a user identifier header
that is missing or empty after trimming makes `getUserId` return `none` and
(with dev bypass off) the `/analyze` gate reject with `missingUser` (HTTP
400), touching no counter; the index.js variant instead substitutes the
sentinel `"anonymous"` and proceeds, consuming quota under that sentinel. -/
theorem C8_invalid_identifier_lua_variant (header : Option String)
    (redisPresent storeReachable expireOk : Bool) (freeLimit : Int)
    (dayKey : String) (s : Store) (h : jsTrim (header.getD "") = "") :
    getUserId header = none ∧
    (analyzeGate true redisPresent storeReachable false header
        freeLimit dayKey expireOk s).1 = GateOutcome.missingUser ∧
    (analyzeGate true redisPresent storeReachable false header
        freeLimit dayKey expireOk s).2 = s := by
  have hgu : getUserId header = none := by simp [getUserId, h]
  exact ⟨hgu, by simp [analyzeGate, hgu], by simp [analyzeGate, hgu]⟩

/-- C8 witness at a concrete input. -/
theorem C8_invalid_identifier_lua_variant_witness :
    (jsTrim ((some "  " : Option String).getD "") = "") ∧
    (getUserId (some "  ") = none ∧
     (analyzeGate true true true false (some "  ") 2 "2026-10-11" true
        (⟨fun _ _ => 0, fun _ => 0, fun _ => false⟩ : Store)).1
       = GateOutcome.missingUser) :=
  ⟨by decide,
   ⟨(C8_invalid_identifier_lua_variant (some "  ") true true true 2 "2026-10-11"
       ⟨fun _ _ => 0, fun _ => 0, fun _ => false⟩ (by decide)).1,
    (C8_invalid_identifier_lua_variant (some "  ") true true true 2 "2026-10-11"
       ⟨fun _ _ => 0, fun _ => 0, fun _ => false⟩ (by decide)).2.1⟩⟩

/-- C9 counterexample: in the index.js variant the expire call inside
`checkAndConsumeQuota` has no catch, so on the first request of a day a
failing expiry makes the whole `/analyze` request fail with a server error —
after the quota increment (the allow decision's basis) has already
committed. -/
theorem C9_expiry_failure_counterexample :
    (IndexJs.analyzeGate true true false false (some "u1") 2 "2026-10-11"
        (⟨fun _ _ => 0, fun _ => 0⟩ : IndexJs.QuotaStore)).1
      = IndexJs.AnalyzeOutcome.serverError ∧
    (IndexJs.analyzeGate true true false false (some "u1") 2 "2026-10-11"
        (⟨fun _ _ => 0, fun _ => 0⟩ : IndexJs.QuotaStore)).2.quota
        "u1" "2026-10-11" = 1 := by
  constructor <;> decide

/-- C9 amended: in the Lua-script variant (part_000) the expiry re-arming is
genuinely best-effort — the `/analyze` gate's outcome and resulting store are
identical for success and failure of the expire call, and an allowed
`TryConsume` still yields `proceed` with its committed state; the index.js
variant instead fails the request when the first-of-day expire call fails,
after the increment has committed. -/
theorem C9_best_effort_expiry_lua_variant (header : Option String)
    (uid : String) (freeLimit : Int) (dayKey : String) (s : Store)
    (hgu : getUserId header = some uid)
    (hall : (consumeUsage freeLimit uid dayKey s).1.allowed = true) :
    (∀ (hasImage redisPresent storeReachable devBypass : Bool)
       (hdr : Option String) (fl : Int) (dk : String) (e1 e2 : Bool) (st : Store),
        analyzeGate hasImage redisPresent storeReachable devBypass hdr fl dk e1 st
          = analyzeGate hasImage redisPresent storeReachable devBypass hdr fl dk e2 st) ∧
    ∀ e : Bool,
      analyzeGate true true true false header freeLimit dayKey e s
        = (GateOutcome.proceed, (consumeUsage freeLimit uid dayKey s).2) := by
  refine ⟨fun _ _ _ _ _ _ _ _ _ _ => rfl, fun e => ?_⟩
  simp [analyzeGate, hgu, hall]

/-- C9 witness at a concrete input. -/
theorem C9_best_effort_expiry_lua_variant_witness :
    (getUserId (some "u1") = some "u1" ∧
     (consumeUsage 2 "u1" "2026-10-11"
        (⟨fun _ _ => 0, fun _ => 0, fun _ => false⟩ : Store)).1.allowed = true) ∧
    analyzeGate true true true false (some "u1") 2 "2026-10-11" false
        (⟨fun _ _ => 0, fun _ => 0, fun _ => false⟩ : Store)
      = (GateOutcome.proceed,
         (consumeUsage 2 "u1" "2026-10-11"
            (⟨fun _ _ => 0, fun _ => 0, fun _ => false⟩ : Store)).2) :=
  ⟨⟨by decide, by decide⟩,
   (C9_best_effort_expiry_lua_variant (some "u1") "u1" 2 "2026-10-11"
      ⟨fun _ _ => 0, fun _ => 0, fun _ => false⟩ (by decide) (by decide)).2 false⟩
